import Mathlib

/-!
Verification development for the Now-SC prompt-template CLI.

The Go sources are shallowly embedded below.  Strings are modelled as Lean
`String` (a wrapped `List Char`); Go's byte-level indexing (`len`, slicing)
is modelled at character granularity, which coincides with the source on
ASCII data.  Filesystem and process effects are modelled by explicit state
passed to the embedded functions: a directory listing, a read function
`String → Option String` (`none` = unreadable), and flags for subprocess
pipe/start/write outcomes.  `fmt.Errorf` error values are modelled by
inductive error types, one constructor per distinct error return in the
source.
-/

/-! ### Character/string helpers mirroring Go's `strings` package (ASCII) -/

/-- ASCII lower-casing of one character (Go `strings.ToLower`, ASCII range). -/
def lowChar (c : Char) : Char :=
  if 'A' ≤ c ∧ c ≤ 'Z' then Char.ofNat (c.toNat + 32) else c

/-- Go `strings.ToLower` (ASCII fragment). -/
def lowerS (s : String) : String := String.mk (s.data.map lowChar)

/-- Whitespace test used by Go `strings.TrimSpace` (ASCII fragment of
`unicode.IsSpace`). -/
def isSpaceChar (c : Char) : Bool :=
  c == ' ' || c == '\t' || c == '\n' || c == '\r' || c == '\x0b' || c == '\x0c'

/-- Go `strings.TrimSpace` (ASCII fragment). -/
def trimS (s : String) : String :=
  String.mk (((s.data.dropWhile isSpaceChar).reverse.dropWhile isSpaceChar).reverse)

/-- List-level starts-with test. -/
def hasPreL : List Char → List Char → Bool
  | _, [] => true
  | [], _ :: _ => false
  | a :: as, b :: bs => a == b && hasPreL as bs

/-- List-level substring test (Go `strings.Contains`). -/
def hasSubL : List Char → List Char → Bool
  | [], p => p.isEmpty
  | a :: as, p => hasPreL (a :: as) p || hasSubL as p

/-- Go `strings.Contains`. -/
def containsS (s sub : String) : Bool := hasSubL s.data sub.data

/-- Go `strings.HasPrefix`. -/
def startsWithS (s p : String) : Bool := hasPreL s.data p.data

/-- Go `strings.HasSuffix`. -/
def endsWithS (s p : String) : Bool := hasPreL s.data.reverse p.data.reverse

/-- Go `strings.TrimPrefix`: drop `p` from the front of `s` if present. -/
def stripPreS (s p : String) : String :=
  if startsWithS s p then String.mk (s.data.drop p.data.length) else s

/-- Go `strings.TrimSuffix`: drop `p` from the end of `s` if present. -/
def stripSufS (s p : String) : String :=
  if endsWithS s p then String.mk (s.data.take (s.data.length - p.data.length)) else s

/-- Go `strings.ReplaceAll` for a single-character pattern and replacement
(the only shape the source uses: `"_" → " "` and `" " → "_"`). -/
def replaceCharS (a b : Char) (s : String) : String :=
  String.mk (s.data.map (fun c => if c == a then b else c))

/-- `strings.Split(s, "\n")[0]`: the prefix of `s` before the first newline. -/
def firstLineS (s : String) : String :=
  String.mk (s.data.takeWhile (fun c => !(c == '\n')))

/-- Character-granularity analogue of Go's byte slice `s[:n]`. -/
def takeS (s : String) (n : Nat) : String := String.mk (s.data.take n)

/-- Character-granularity analogue of Go's byte length `len(s)`. -/
def lenS (s : String) : Nat := s.data.length

/-! ### `path/filepath` fragment -/

/-- Go `filepath.Base` (Unix separators, no volume names). -/
def goBase (p : String) : String :=
  if p == "" then "."
  else
    let rcs := p.data.reverse.dropWhile (fun c => c == '/')
    let name := rcs.takeWhile (fun c => !(c == '/'))
    if name.isEmpty then "/" else String.mk name.reverse

/-- Split a string on `'/'`. -/
def splitSlash : List Char → List (List Char)
  | [] => [[]]
  | c :: cs =>
    let r := splitSlash cs
    if c == '/' then [] :: r
    else
      match r with
      | [] => [[c]]
      | h :: t => (c :: h) :: t

/-- Rejoin path components with `'/'`. -/
def joinComps : List String → String
  | [] => ""
  | [c] => c
  | c :: c2 :: cs => c ++ "/" ++ joinComps (c2 :: cs)

/-- Go `filepath.Join` for the path shapes the source uses: concatenates the
parts, drops empty and `"."` components (the effect of `filepath.Clean` on
paths without `".."` segments, which never arise here). -/
def goJoin (parts : List String) : String :=
  let comps := (parts.map (fun p => (splitSlash p.data).map String.mk)).flatten
  let comps := comps.filter (fun c => !(c == "" || c == "."))
  let isAbs := match parts with
    | p :: _ => startsWithS p "/"
    | [] => false
  if comps.isEmpty then (if isAbs then "/" else "")
  else (if isAbs then "/" else "") ++ joinComps comps

/-! ### Template store (`ListPrompts` / `FindPrompt`, from the prompts file) -/

/-- One `os.DirEntry` of the templates directory. -/
structure DirEntry where
  name : String
  isDir : Bool
deriving DecidableEq

/-- State of the `10_PromptTemplates` directory as seen by `ListPrompts`:
whether `os.Stat` finds it, the result of `os.ReadDir` (`none` = read
failure), and per-entry file contents (`none` = `os.ReadFile` fails). -/
structure TemplateFS where
  dirExists : Bool
  entries : Option (List DirEntry)
  fileContent : String → Option String

/-- Go `PromptInfo`. -/
structure PromptInfo where
  name : String
  fileName : String
  path : String
  description : String
deriving DecidableEq

/-- Errors returned by the template store (one constructor per distinct
`fmt.Errorf` in the source, carrying the path/name the message embeds). -/
inductive PromptError where
  | dirNotFound (path : String)
  | readDirFailed
  | noPrompts (path : String)
  | promptNotFound (query : String)
deriving DecidableEq

/-- The spec's flat error taxonomy (section 7). -/
inductive SpecErrClass where
  | notFound
  | ioError
deriving DecidableEq

/-- Classification of template-store errors into the spec taxonomy. -/
def promptErrClass : PromptError → SpecErrClass
  | .dirNotFound _ => .notFound
  | .readDirFailed => .ioError
  | .noPrompts _ => .notFound
  | .promptNotFound _ => .notFound

/-- The description computation inside `ListPrompts`: first line of the file
content, a leading `"#"` trimmed, surrounding whitespace trimmed, truncated
to 60 characters plus `"..."` if longer. -/
def codeDescription (content : String) : String :=
  let description := trimS (stripPreS (firstLineS content) "#")
  if 60 < lenS description then takeS description 60 ++ "..." else description

/-- The `PromptInfo` built for one accepted directory entry. -/
def mkPromptInfo (fs : TemplateFS) (promptsPath : String) (entryName : String) :
    PromptInfo :=
  { name := replaceCharS '_' ' ' (stripSufS entryName ".md")
    fileName := entryName
    path := goJoin [promptsPath, entryName]
    description :=
      match fs.fileContent entryName with
      | none => ""
      | some content => codeDescription content }

/-- Go `ListPrompts`. -/
def ListPrompts (fs : TemplateFS) (projectRoot : String) :
    Except PromptError (List PromptInfo) :=
  let promptsPath := goJoin [projectRoot, "10_PromptTemplates"]
  if !fs.dirExists then .error (.dirNotFound promptsPath)
  else
    match fs.entries with
    | none => .error .readDirFailed
    | some entries =>
      let prompts :=
        (entries.filter (fun e => !e.isDir && endsWithS e.name ".md")).map
          (fun e => mkPromptInfo fs promptsPath e.name)
      if prompts.isEmpty then .error (.noPrompts promptsPath)
      else .ok prompts

/-- The exact-match test of `FindPrompt`'s first loop. -/
def exactMatchB (query : String) (p : PromptInfo) : Bool :=
  lowerS p.name == lowerS (trimS query) ||
    lowerS (stripSufS p.fileName ".md") == lowerS (trimS query)

/-- The substring-match test of `FindPrompt`'s second loop. -/
def subMatchB (query : String) (p : PromptInfo) : Bool :=
  containsS (lowerS p.name) (lowerS (trimS query))

/-- Go `FindPrompt`. -/
def FindPrompt (fs : TemplateFS) (projectRoot : String) (promptName : String) :
    Except PromptError PromptInfo :=
  match ListPrompts fs projectRoot with
  | .error e => .error e
  | .ok prompts =>
    match prompts.find? (exactMatchB promptName) with
    | some p => .ok p
    | none =>
      match prompts.find? (subMatchB promptName) with
      | some p => .ok p
      | none => .error (.promptNotFound promptName)

/-! ### Context formatter (`ReadFileContent` / `FormatFileContext`) -/

/-- Error of the context formatter (`fmt.Errorf("failed to read file %s...")`). -/
inductive CtxError where
  | readFailed (path : String)
deriving DecidableEq

/-- Go `ReadFileContent` over a read function (`none` = `os.ReadFile` fails). -/
def ReadFileContent (rd : String → Option String) (filePath : String) :
    Except CtxError String :=
  match rd filePath with
  | none => .error (.readFailed filePath)
  | some content => .ok content

/-- The loop body of `FormatFileContext`: banner, content and blank-line
separator per file, short-circuiting on the first read error.  (The Go
builder accumulates front-to-back; this recursion builds the same string
back-to-front.) -/
def fmtLoop (rd : String → Option String) : List String → Except CtxError String
  | [] => .ok ""
  | filePath :: rest =>
    match ReadFileContent rd filePath with
    | .error e => .error e
    | .ok content =>
      match fmtLoop rd rest with
      | .error e => .error e
      | .ok tail =>
        .ok ("=== File: " ++ goBase filePath ++ " ===\n\n" ++ content ++ "\n\n" ++ tail)

/-- Go `FormatFileContext`: returns the Go pair `(string, error)` — the
string result is `""` whenever the error is non-nil (`return "", err`). -/
def FormatFileContext (rd : String → Option String) (files : List String) :
    String × Option CtxError :=
  match fmtLoop rd files with
  | .error e => ("", some e)
  | .ok body => ("Context Files:\n\n" ++ body, none)

/-! ### Local-process backend (`internal/claude/client.go`, `ExecutePrompt`) -/

/-- Outcome of one subprocess run: whether `cmd.Wait()` reports success, and
the captured standard output / standard error. -/
structure ProcResult where
  exitOk : Bool
  stdout : String
  stderr : String

/-- State of the `claude code --stdio` subprocess machinery: whether
`cmd.StdinPipe()`, `cmd.Start()` and the `io.WriteString` to stdin succeed,
and the process behaviour as a function of what was written to its standard
input. -/
structure ProcWorld where
  stdinPipeOk : Bool
  startOk : Bool
  writeOk : Bool
  run : String → ProcResult

/-- Errors of `claude.Client.ExecutePrompt` (one constructor per
`fmt.Errorf` return in the source). -/
inductive ClaudeError where
  | stdinPipeFailed
  | startFailed
  | writePromptFailed
  | executionFailed (stderr : String)
  | emptyResponse
deriving DecidableEq

/-- Go `claude.Client.ExecutePrompt`. -/
def ExecutePrompt (w : ProcWorld) (promptContent userInput : String) :
    Except ClaudeError String :=
  let fullPrompt := promptContent ++ "\n\nUser Request:\n" ++ userInput
  if !w.stdinPipeOk then .error .stdinPipeFailed
  else if !w.startOk then .error .startFailed
  else if !w.writeOk then .error .writePromptFailed
  else
    let r := w.run fullPrompt
    if !r.exitOk then .error (.executionFailed r.stderr)
    else if r.stdout == "" then .error .emptyResponse
    else .ok (trimS r.stdout)

/-! ### Session controller (`internal/commands`, `runPrompt` / `runPromptRun`) -/

/-- Errors returned by the two command entry points (one constructor per
distinct error return; backend errors are carried as their message). -/
inductive RunError where
  | noProviderConfigured
  | templatesDirNotFound
  | readPromptsDirFailed
  | noPromptTemplates
  | promptSelectionFailed
  | readPromptFileFailed
  | inputPromptFailed
  | executePromptFailed (msg : String)
  | claudeCodeNotAvailable
  | openRouterNotImplemented
  | stdinReadFailed
  | findFailed (e : PromptError)
  | contextFilesFailed (e : CtxError)
  | mkdirFailed
  | writeFileFailed
deriving DecidableEq

/-- Scripted outcomes of the promptui interactions, in workflow order.
`none` means the corresponding `Run()` returned an error (user cancelled);
for the yes/no save confirmation (`IsConfirm`), `confirmSave = false` means
`Run()` returned an error (user declined).  Select results are the chosen
index; promptui only ever yields an in-range index of the offered list. -/
structure UIScript where
  selectTemplate : Option Nat
  inputText : Option String
  confirmSave : Bool
  selectLocation : Option Nat
  customPath : Option String
  filename : Option String

/-- Whether `os.MkdirAll` and `os.WriteFile` succeed during a save. -/
structure SaveFS where
  mkdirOk : Bool
  writeOk : Bool

/-- The flags of `now-sc prompt run` (defaults: `--claude=true`,
`--save=true`, `--output=""`, no files, no discovery). -/
structure RunFlags where
  inputFiles : List String
  useClaudeCode : Bool
  discover : Bool
  save : Bool
  outputPath : String

/-- The Markdown written by `savePromptOutput` (run-command save paths). -/
def savePromptOutputContent (promptName now input response : String) : String :=
  "# " ++ promptName ++ "\n\n**Date:** " ++ now ++ "\n**Prompt:** " ++ promptName ++
    "\n\n## Input\n\n" ++ input ++ "\n\n## Response\n\n" ++ response ++ "\n"

/-- The Markdown written by the interactive `runPrompt` save step (the model
identifier is passed to the format string as the constant argument
`"google/gemini-2.0-flash-exp:free"`, as in the source). -/
def interactiveOutputContent (filename now selectedPrompt userInput result : String) :
    String :=
  "# " ++ replaceCharS '_' ' ' filename ++ "\n\n**Date:** " ++ now ++
    "\n**Prompt Template:** " ++ selectedPrompt ++
    "\n**Model:** " ++ "google/gemini-2.0-flash-exp:free" ++
    "\n\n## User Input\n\n" ++ userInput ++ "\n\n## Response\n\n" ++ result ++ "\n"

/-- Go `savePromptOutput`: builds the Markdown, creates the directory,
writes the file.  A successful run is modelled as `ok (some (path, content))`
recording exactly what was written where. -/
def savePromptOutputM (promptName input response outputPath : String)
    (sfs : SaveFS) (now : String) : Except RunError (Option (String × String)) :=
  let outputContent := savePromptOutputContent promptName now input response
  if !sfs.mkdirOk then .error .mkdirFailed
  else if !sfs.writeOk then .error .writeFileFailed
  else .ok (some (outputPath, outputContent))

/-- The destination chosen from the five-entry location menu (Go `switch`;
an index outside `0..4` would leave `savePath` at its zero value `""`). -/
def locationPath : Nat → String
  | 0 => "99_Assets/Project_Overview"
  | 1 => "99_Assets/Communications"
  | 2 => "99_Assets/POC_Documents"
  | 3 => "00_Inbox/notes"
  | _ => ""

/-- The tail of `savePromptOutputInteractive` once a destination is fixed:
filename prompt (cancel returns `nil`), then `savePromptOutput` at
`<root>/<savePath>/<filename>.md`. -/
def savePromptOutputAtLoc (projectRoot promptName input response : String)
    (ui : UIScript) (sfs : SaveFS) (now savePath : String) :
    Except RunError (Option (String × String)) :=
  match ui.filename with
  | none => .ok none
  | some filename =>
    let fullPath := goJoin [projectRoot, savePath, filename ++ ".md"]
    savePromptOutputM promptName input response fullPath sfs now

/-- Go `savePromptOutputInteractive`: location menu, optional custom path,
filename prompt, then `savePromptOutput` at `<root>/<savePath>/<filename>.md`.
Every cancelled prompt returns `nil` (modelled `ok none`). -/
def savePromptOutputInteractiveM (projectRoot promptName input response : String)
    (ui : UIScript) (sfs : SaveFS) (now : String) :
    Except RunError (Option (String × String)) :=
  match ui.selectLocation with
  | none => .ok none
  | some locIdx =>
    if locIdx == 4 then
      match ui.customPath with
      | none => .ok none
      | some customPath =>
        savePromptOutputAtLoc projectRoot promptName input response ui sfs now
          customPath
    else
      savePromptOutputAtLoc projectRoot promptName input response ui sfs now
        (locationPath locIdx)

/-- The tail of the interactive `runPrompt` save step once a destination is
fixed: filename prompt (cancel returns `nil`), then the Markdown write. -/
def saveFlowProceed (ui : UIScript) (sfs : SaveFS) (now : String)
    (selectedPrompt userInput result savePath : String) :
    Except RunError (Option (String × String)) :=
  match ui.filename with
  | none => .ok none
  | some filename =>
    let outputContent :=
      interactiveOutputContent filename now selectedPrompt userInput result
    let fullPath := goJoin [".", savePath, filename ++ ".md"]
    if !sfs.mkdirOk then .error .mkdirFailed
    else if !sfs.writeOk then .error .writeFileFailed
    else .ok (some (fullPath, outputContent))

/-- The save stage of the interactive `runPrompt` (everything after the
response is displayed): save confirmation, location menu, optional custom
path, then `saveFlowProceed` (filename prompt and Markdown write).
Declined prompts return `nil` (modelled `ok none`). -/
def saveFlowInteractive (ui : UIScript) (sfs : SaveFS) (now : String)
    (selectedPrompt userInput result : String) :
    Except RunError (Option (String × String)) :=
  if !ui.confirmSave then .ok none
  else
    match ui.selectLocation with
    | none => .ok none
    | some locIdx =>
      if locIdx == 4 then
        match ui.customPath with
        | none => .ok none
        | some customPath =>
          saveFlowProceed ui sfs now selectedPrompt userInput result customPath
      else saveFlowProceed ui sfs now selectedPrompt userInput result (locationPath locIdx)

/-- The `.md` files of the templates directory, in listing order
(the `promptFiles` slice of `runPrompt`). -/
def promptFilesOf (entries : List DirEntry) : List String :=
  (entries.filter (fun e => !e.isDir && endsWithS e.name ".md")).map DirEntry.name

/-- The interactive `runPrompt` from its start through backend execution:
provider check, templates-directory scan, template menu, prompt-file read,
input prompt, execution.  Returns the selected template file name, the user
input and the backend response.  The two backends are the injected
`claudeExec` / `openExec` dependencies. -/
def runPromptPipeline (apiKey : String) (hasClaudeCode : Bool) (dir : TemplateFS)
    (ui : UIScript) (claudeExec openExec : String → String → Except String String) :
    Except RunError (String × String × String) :=
  if apiKey == "" && !hasClaudeCode then .error .noProviderConfigured
  else
    let useCC := hasClaudeCode
    let useCC := if !(apiKey == "") && !hasClaudeCode then false else useCC
    if !dir.dirExists then .error .templatesDirNotFound
    else
      match dir.entries with
      | none => .error .readPromptsDirFailed
      | some entries =>
        let promptFiles := promptFilesOf entries
        if promptFiles.isEmpty then .error .noPromptTemplates
        else
          match ui.selectTemplate with
          | none => .error .promptSelectionFailed
          | some idx =>
            match promptFiles[idx]? with
            | none => .error .promptSelectionFailed
            | some selectedPrompt =>
              match dir.fileContent selectedPrompt with
              | none => .error .readPromptFileFailed
              | some promptContent =>
                match ui.inputText with
                | none => .error .inputPromptFailed
                | some userInput =>
                  match (if useCC then claudeExec promptContent userInput
                         else openExec promptContent userInput) with
                  | .error msg => .error (.executePromptFailed msg)
                  | .ok result => .ok (selectedPrompt, userInput, result)

/-- Go `runPrompt` (the interactive `now-sc prompt` command): the pipeline
above followed by the save stage.  The Go source is one function; it is
split here at the point where the response has been displayed, composing
the two halves exactly as the source sequences them. -/
def runPrompt (apiKey : String) (hasClaudeCode : Bool) (dir : TemplateFS)
    (ui : UIScript) (sfs : SaveFS)
    (claudeExec openExec : String → String → Except String String)
    (now : String) : Except RunError (Option (String × String)) :=
  match runPromptPipeline apiKey hasClaudeCode dir ui claudeExec openExec with
  | .error e => .error e
  | .ok (selectedPrompt, userInput, result) =>
    saveFlowInteractive ui sfs now selectedPrompt userInput result

/-- `now-sc prompt run` from its start through backend execution: template
lookup, prompt-file read, stdin/context/interactive input assembly,
availability check, execution.  `stdin = some s` models piped standard
input with content `s`; `discoverSel` is the outcome of
`discoverAndSelectFiles` (inbox walk plus file menu), injected because no
claim concerns its internals.  Returns the prompt display name, the
combined input and the backend response. -/
def runRunPipeline (flags : RunFlags) (promptName : String) (tfs : TemplateFS)
    (ctxRead : String → Option String) (stdin : Option String)
    (claudeAvail : Bool) (claudeExec : String → String → Except String String)
    (discoverSel : Except String (List String)) (ui : UIScript) :
    Except RunError (String × String × String) :=
  match FindPrompt tfs "." promptName with
  | .error e => .error (.findFailed e)
  | .ok prompt =>
    match tfs.fileContent prompt.fileName with
    | none => .error .readPromptFileFailed
    | some promptContent =>
      let userInput0 := stdin.getD ""
      let files1 :=
        if flags.discover then
          match discoverSel with
          | .error _ => flags.inputFiles
          | .ok sel => if sel.isEmpty then flags.inputFiles else flags.inputFiles ++ sel
        else flags.inputFiles
      match (if files1.isEmpty then ("", none) else FormatFileContext ctxRead files1) with
      | (_, some e) => .error (.contextFilesFailed e)
      | (fileContext, none) =>
        match (if userInput0 == "" && fileContext == "" then
                 match ui.inputText with
                 | none => Except.error RunError.inputPromptFailed
                 | some t => Except.ok t
               else Except.ok userInput0) with
        | .error e => .error e
        | .ok userInput =>
          let fullInput := fileContext ++
            (if userInput == "" then ""
             else (if fileContext == "" then "" else "\n\nUser Input:\n") ++ userInput)
          if flags.useClaudeCode then
            if !claudeAvail then .error .claudeCodeNotAvailable
            else
              match claudeExec promptContent fullInput with
              | .error msg => .error (.executePromptFailed msg)
              | .ok result => .ok (prompt.name, fullInput, result)
          else .error .openRouterNotImplemented

/-- The save stage of `runPromptRun`: explicit `--output` path wins and goes
straight to `savePromptOutput`; otherwise, with `--save`, a declined
confirmation returns `nil` and a confirmed one enters the interactive save. -/
def saveStageRun (flags : RunFlags) (ui : UIScript) (sfs : SaveFS) (now : String) :
    String × String × String → Except RunError (Option (String × String)) :=
  fun x =>
    if !(flags.outputPath == "") then
      savePromptOutputM x.1 x.2.1 x.2.2 flags.outputPath sfs now
    else if flags.save then
      if !ui.confirmSave then .ok none
      else savePromptOutputInteractiveM "." x.1 x.2.1 x.2.2 ui sfs now
    else .ok none

/-- Go `runPromptRun` (the `now-sc prompt run <name>` command): pipeline
followed by save stage, composed exactly as the source sequences them. -/
def runPromptRun (flags : RunFlags) (promptName : String) (tfs : TemplateFS)
    (ctxRead : String → Option String) (stdin : Option String)
    (claudeAvail : Bool) (claudeExec : String → String → Except String String)
    (discoverSel : Except String (List String)) (ui : UIScript) (sfs : SaveFS)
    (now : String) : Except RunError (Option (String × String)) :=
  match runRunPipeline flags promptName tfs ctxRead stdin claudeAvail claudeExec
      discoverSel ui with
  | .error e => .error e
  | .ok x => saveStageRun flags ui sfs now x

/-! ### Spec-side definitions (written from the spec's words, for comparison) -/

/-- The output the spec predicts for the context formatter: per file, a
banner line naming the file's base name, the file's full content, and a
blank-line separator, in the caller-supplied order. -/
def ctxParts (rd : String → Option String) : List String → String
  | [] => ""
  | f :: rest =>
    "=== File: " ++ goBase f ++ " ===\n\n" ++ (rd f).getD "" ++ "\n\n" ++ ctxParts rd rest

/-- The description the (amended) spec predicts: first line of the content
with a leading `#` removed and surrounding whitespace trimmed, truncated to
its first 60 characters plus a 3-character ellipsis when longer. -/
def specDescription (content : String) : String :=
  let d := trimS (stripPreS (firstLineS content) "#")
  if 60 < lenS d then takeS d 60 ++ "..." else d

/-- The description claim C4 states literally: the first line of the content
with a leading `#` trimmed (no whitespace trimming), truncated to 60
characters plus an ellipsis when longer. -/
def claimDescription (content : String) : String :=
  let d := stripPreS (firstLineS content) "#"
  if 60 < lenS d then takeS d 60 ++ "..." else d

/-- The single fixed section layout claim C2 asserts for every save path:
title, date, template name, model identifier, input section, response
section (as realized by the interactive save path, the only one carrying a
model identifier). -/
def fixedSectionLayout (title date templateName model input response : String) :
    String :=
  "# " ++ title ++ "\n\n**Date:** " ++ date ++ "\n**Prompt Template:** " ++
    templateName ++ "\n**Model:** " ++ model ++ "\n\n## User Input\n\n" ++ input ++
    "\n\n## Response\n\n" ++ response ++ "\n"

/-- A key-value file store and its write operation, for round-trip
statements about saved output files. -/
def writeStore (st : String → Option String) (p c : String) : String → Option String :=
  fun q => if q == p then some c else st q


/-! ### Concrete fixtures for witnesses and counterexamples -/

/-- Read function fixture: two readable files, everything else unreadable. -/
def c5rd : String → Option String :=
  fun p => if p == "docs/a.txt" then some "alpha"
    else if p == "b.txt" then some "beta" else none


/-- Directory fixture: only a subdirectory and a non-`.md` file. -/
def c7fsOnlyNonMd : TemplateFS :=
  ⟨true, some [⟨"sub", true⟩, ⟨"notes.txt", false⟩], fun _ => none⟩


/-- Directory fixture: templates directory absent. -/
def c7fsAbsent : TemplateFS := ⟨false, none, fun _ => none⟩


/-- Directory fixture: directory present but the read fails. -/
def c7fsReadFail : TemplateFS := ⟨true, none, fun _ => none⟩

deriving instance DecidableEq for Except

/-- Template directory fixture for C3: an exact-match target (`Sales.md`)
whose name is also a substring of another template's name. -/
def c3fs : TemplateFS :=
  ⟨true, some [⟨"Sales_Discovery.md", false⟩, ⟨"Sales.md", false⟩], fun _ => none⟩

/-- The listing entry for `Sales_Discovery.md`. -/
def c3info1 : PromptInfo :=
  ⟨"Sales Discovery", "Sales_Discovery.md", "r/10_PromptTemplates/Sales_Discovery.md", ""⟩

/-- The listing entry for `Sales.md`. -/
def c3info2 : PromptInfo := ⟨"Sales", "Sales.md", "r/10_PromptTemplates/Sales.md", ""⟩

/-- Template directory fixture for C10: a regular template plus a file
named exactly `.md`, whose display name and filename stem are empty. -/
def c10fs : TemplateFS :=
  ⟨true, some [⟨"a.md", false⟩, ⟨".md", false⟩], fun _ => none⟩

/-- The listing entry for `a.md`. -/
def c10info1 : PromptInfo := ⟨"a", "a.md", "r/10_PromptTemplates/a.md", ""⟩

/-- The listing entry for `.md` (empty display name). -/
def c10info2 : PromptInfo := ⟨"", ".md", "r/10_PromptTemplates/.md", ""⟩

/-- Template directory fixture for the amended C10: two ordinary templates. -/
def c10wfs : TemplateFS :=
  ⟨true, some [⟨"a.md", false⟩, ⟨"b.md", false⟩], fun _ => none⟩

/-- The listing entry for `a.md` in `c10wfs`. -/
def c10wa : PromptInfo := ⟨"a", "a.md", "r/10_PromptTemplates/a.md", ""⟩

/-- The listing entry for `b.md` in `c10wfs`. -/
def c10wb : PromptInfo := ⟨"b", "b.md", "r/10_PromptTemplates/b.md", ""⟩

/-- Template directory fixture for C4: one template whose first line is
`# hi`. -/
def c4fs : TemplateFS := ⟨true, some [⟨"a.md", false⟩], fun _ => some "# hi"⟩

/-- The listing entry produced for `a.md` in `c4fs`. -/
def c4info : PromptInfo := ⟨"a", "a.md", "r/10_PromptTemplates/a.md", "hi"⟩

/-- A 70-character heading body, longer than the 60-character limit. -/
def c4long : String := "xxxxxxxxxxxxxxxxxxxxxxxxxxxxxxxxxxxxxxxxxxxxxxxxxxxxxxxxxxxxxxxxxxxxxx"

/-- Template directory fixture for C4 truncation: one template whose first
line is `# ` followed by 70 characters. -/
def c4fsLong : TemplateFS :=
  ⟨true, some [⟨"b.md", false⟩], fun _ => some ("# " ++ c4long)⟩

/-- The listing entry produced for `b.md` in `c4fsLong`: the description is
the first 60 characters plus the ellipsis. -/
def c4infoLong : PromptInfo :=
  ⟨"b", "b.md", "r/10_PromptTemplates/b.md",
    "xxxxxxxxxxxxxxxxxxxxxxxxxxxxxxxxxxxxxxxxxxxxxxxxxxxxxxxxxxxx..."⟩

/-- Process fixture for C9: everything succeeds and the subprocess prints
`ok` with a trailing newline. -/
def c9w : ProcWorld := ⟨true, true, true, fun _ => ⟨true, "ok\n", ""⟩⟩

/-- Process fixture for the amended C9: the subprocess fails to start. -/
def c9wStart : ProcWorld := ⟨true, false, true, fun _ => ⟨true, "", ""⟩⟩

/-- Template directory fixture for the command-level claims: one template
`x.md` with content `body`. -/
def cmdFs : TemplateFS := ⟨true, some [⟨"x.md", false⟩], fun _ => some "body"⟩

/-- The listing entry for `x.md` in `cmdFs` (project root `.`). -/
def cmdInfoX : PromptInfo := ⟨"x", "x.md", "10_PromptTemplates/x.md", "body"⟩

/-- UI script that completes every step (location 3 = `00_Inbox/notes`,
filename `meeting`). -/
def uiAll : UIScript := ⟨some 0, some "input", true, some 3, none, some "meeting"⟩

/-- UI script that declines the save confirmation. -/
def uiDecline : UIScript := ⟨some 0, some "i", false, some 0, none, some "f"⟩

/-- UI script that cancels the template-selection menu. -/
def uiCancelSelect : UIScript := ⟨none, some "i", true, some 0, none, some "f"⟩

/-- Save filesystem in which directory creation and file write succeed. -/
def sfsOk : SaveFS := ⟨true, true⟩

/-- The default `prompt run` flags: no files, `--claude=true`,
no discovery, `--save=true`, no `--output`. -/
def flagsDefault : RunFlags := ⟨[], true, false, true, ""⟩

/-- A backend that always answers `resp`. -/
def execOk : String → String → Except String String := fun _ _ => .ok "resp"

/-- The file the `--output` save path writes in the C2 witness. -/
def c2runPair : String × String := ("out.md", savePromptOutputContent "p" "d" "i" "r")

/-- The file the interactive save writes in the C2 witness. -/
def c2pairW : String × String :=
  ("00_Inbox/notes/meeting.md", interactiveOutputContent "meeting" "d" "x.md" "i" "r")

/-! ### Shared helper lemmas -/

theorem dataAppend (s t : String) : (s ++ t).data = s.data ++ t.data := by
  cases s; cases t; rfl

theorem hasPreL_append (p y : List Char) : hasPreL (p ++ y) p = true := by
  induction p with
  | nil => cases y <;> rfl
  | cons a as ih => simpa [hasPreL] using ih

theorem hasSubL_empty (l : List Char) : hasSubL l [] = true := by
  cases l <;> simp [hasSubL, hasPreL, List.isEmpty]

theorem hasSubL_append (x p y : List Char) : hasSubL (x ++ p ++ y) p = true := by
  induction x with
  | nil =>
    cases p with
    | nil => simpa using hasSubL_empty y
    | cons b bs =>
      simp only [List.nil_append, List.cons_append, hasSubL, Bool.or_eq_true]
      exact Or.inl (hasPreL_append (b :: bs) y)
  | cons a as ih =>
    simp only [List.cons_append, hasSubL, Bool.or_eq_true]
    exact Or.inr (by simpa [List.append_assoc] using ih)

theorem containsS_of_append (s a b c : String)
    (h : s.data = a.data ++ b.data ++ c.data) : containsS s b = true := by
  rw [containsS, h]
  exact hasSubL_append a.data b.data c.data

theorem findNoneIff (p : α → Bool) (l : List α) :
    l.find? p = none ↔ ∀ x ∈ l, p x = false := by
  induction l with
  | nil => simp [List.find?]
  | cons a as ih =>
    cases hpa : p a <;> simp [List.find?, hpa, ih]

theorem findSomeExists (p : α → Bool) (l : List α) (x : α) (hx : x ∈ l)
    (hpx : p x = true) : ∃ y, l.find? p = some y ∧ p y = true := by
  induction l with
  | nil => cases hx
  | cons a as ih =>
    cases hpa : p a with
    | true => exact ⟨a, by simp [List.find?, hpa], hpa⟩
    | false =>
      rcases List.mem_cons.mp hx with rfl | hmem
      · rw [hpa] at hpx; cases hpx
      · obtain ⟨y, hy, hpy⟩ := ih hmem
        exact ⟨y, by simp [List.find?, hpa, hy], hpy⟩

theorem fmtLoop_all_ok (rd : String → Option String) (files : List String)
    (h : ∀ f ∈ files, (rd f).isSome = true) :
    fmtLoop rd files = .ok (ctxParts rd files) := by
  induction files with
  | nil => rfl
  | cons f rest ih =>
    obtain ⟨c, hc⟩ := Option.isSome_iff_exists.mp (h f (List.mem_cons_self f rest))
    have hrest := ih (fun g hg => h g (List.mem_cons_of_mem f hg))
    simp [fmtLoop, ReadFileContent, hc, hrest, ctxParts]

theorem fmtLoop_first_err (rd : String → Option String) (pre : List String)
    (p : String) (post : List String) (hpre : ∀ f ∈ pre, (rd f).isSome = true)
    (hp : rd p = none) :
    fmtLoop rd (pre ++ p :: post) = .error (.readFailed p) := by
  induction pre with
  | nil => simp [fmtLoop, ReadFileContent, hp]
  | cons f rest ih =>
    obtain ⟨c, hc⟩ := Option.isSome_iff_exists.mp (hpre f (List.mem_cons_self f rest))
    have hrest := ih (fun g hg => hpre g (List.mem_cons_of_mem f hg))
    simp [fmtLoop, ReadFileContent, hc, hrest]

/-- Claim C5: for every list of readable file paths, the context formatter
returns (with no error) a single string made of the fixed header line
followed, for each file in the caller-supplied order, by exactly one banner
line naming that file's base name, the file's full content, and a
blank-line separator. -/
theorem c5_format_order_banners (rd : String → Option String) (files : List String)
    (h : ∀ f ∈ files, (rd f).isSome = true) :
    FormatFileContext rd files = ("Context Files:\n\n" ++ ctxParts rd files, none) := by
  rw [FormatFileContext, fmtLoop_all_ok rd files h]

theorem c5_witness :
    (∀ f ∈ ["docs/a.txt", "b.txt"], (c5rd f).isSome = true) ∧
      FormatFileContext c5rd ["docs/a.txt", "b.txt"] =
        ("Context Files:\n\n" ++ ctxParts c5rd ["docs/a.txt", "b.txt"], none) :=
  ⟨by decide, c5_format_order_banners c5rd ["docs/a.txt", "b.txt"] (by decide)⟩

/-- Claim C6: when the file list contains an unreadable file, the context
formatter fails with the read error naming the first unreadable path in
list order, the returned string is empty (no partial output), and the
result does not depend on the files after the first unreadable one (they
are not read: the tail may be anything). -/
theorem c6_first_unreadable_fails (rd : String → Option String) (pre : List String)
    (p : String) (hpre : ∀ f ∈ pre, (rd f).isSome = true) (hp : rd p = none) :
    ∀ post, FormatFileContext rd (pre ++ p :: post) = ("", some (.readFailed p)) := by
  intro post
  rw [FormatFileContext, fmtLoop_first_err rd pre p post hpre hp]

theorem c6_witness :
    (∀ f ∈ ["docs/a.txt"], (c5rd f).isSome = true) ∧ c5rd "bad.txt" = none ∧
      FormatFileContext c5rd ["docs/a.txt", "bad.txt", "b.txt"] =
        ("", some (.readFailed "bad.txt")) :=
  ⟨by decide, by decide,
    c6_first_unreadable_fails c5rd ["docs/a.txt"] "bad.txt" (by decide) (by decide)
      ["b.txt"]⟩

/-- Claim C7: listing fails with the zero-matches NotFound error whenever
every directory entry is a directory or lacks the `.md` suffix; it fails
with the directory-absent NotFound error when the templates directory does
not exist, and with an IOError when the directory read fails. -/
theorem c7_list_error_taxonomy (fs : TemplateFS) (root : String) :
    (∀ es, fs.dirExists = true → fs.entries = some es →
        (∀ e ∈ es, e.isDir = true ∨ endsWithS e.name ".md" = false) →
        ListPrompts fs root = .error (.noPrompts (goJoin [root, "10_PromptTemplates"])) ∧
          promptErrClass (.noPrompts (goJoin [root, "10_PromptTemplates"])) = .notFound) ∧
    (fs.dirExists = false →
        ListPrompts fs root = .error (.dirNotFound (goJoin [root, "10_PromptTemplates"])) ∧
          promptErrClass (.dirNotFound (goJoin [root, "10_PromptTemplates"])) = .notFound) ∧
    (fs.dirExists = true → fs.entries = none →
        ListPrompts fs root = .error .readDirFailed ∧
          promptErrClass .readDirFailed = .ioError) := by
  refine ⟨?_, ?_, ?_⟩
  · intro es hex hent hall
    have hfilter : es.filter (fun e => !e.isDir && endsWithS e.name ".md") = [] := by
      apply List.filter_eq_nil_iff.mpr
      intro e he
      rcases hall e he with hd | hm
      · simp [hd]
      · simp [hm]
    refine ⟨?_, rfl⟩
    simp [ListPrompts, hex, hent, hfilter]
  · intro hex
    refine ⟨?_, rfl⟩
    simp [ListPrompts, hex]
  · intro hex hent
    refine ⟨?_, rfl⟩
    simp [ListPrompts, hex, hent]



theorem c7_witness :
    (ListPrompts c7fsOnlyNonMd "r" =
        .error (.noPrompts (goJoin ["r", "10_PromptTemplates"])) ∧
      promptErrClass (.noPrompts (goJoin ["r", "10_PromptTemplates"])) = .notFound) ∧
    (ListPrompts c7fsAbsent "r" =
        .error (.dirNotFound (goJoin ["r", "10_PromptTemplates"])) ∧
      promptErrClass (.dirNotFound (goJoin ["r", "10_PromptTemplates"])) = .notFound) ∧
    (ListPrompts c7fsReadFail "r" = .error .readDirFailed ∧
      promptErrClass .readDirFailed = .ioError) :=
  ⟨(c7_list_error_taxonomy c7fsOnlyNonMd "r").1 [⟨"sub", true⟩, ⟨"notes.txt", false⟩]
      rfl rfl (by decide),
    (c7_list_error_taxonomy c7fsAbsent "r").2.1 rfl,
    (c7_list_error_taxonomy c7fsReadFail "r").2.2 rfl rfl⟩

theorem subMatch_of_trim_empty (q : String) (p : PromptInfo) (hq : trimS q = "") :
    subMatchB q p = true := by
  unfold subMatchB
  rw [hq]
  have h0 : lowerS "" = "" := rfl
  rw [h0]
  unfold containsS
  have h1 : ("" : String).data = [] := rfl
  rw [h1]
  exact hasSubL_empty _

theorem truncLen (d : String) (hl : 60 < lenS d) :
    lenS (takeS d 60 ++ "...") = 63 := by
  have h3 : ("..." : String).data.length = 3 := rfl
  simp only [lenS, takeS, dataAppend, List.length_append, List.length_take, h3]
  simp only [lenS] at hl
  omega

theorem listPrompts_shape (fs : TemplateFS) (root : String) (ps : List PromptInfo)
    (h : ListPrompts fs root = .ok ps) :
    ∀ p ∈ ps, ∃ n, p = mkPromptInfo fs (goJoin [root, "10_PromptTemplates"]) n := by
  intro p hp
  unfold ListPrompts at h
  cases hd : fs.dirExists with
  | false => simp [hd] at h
  | true =>
    rw [hd] at h
    cases hent : fs.entries with
    | none => simp [hent] at h
    | some es =>
      rw [hent] at h
      simp only [Bool.not_true, Bool.false_eq_true, if_false] at h
      split at h
      · cases h
      · have hps :
            (es.filter (fun e => !e.isDir && endsWithS e.name ".md")).map
              (fun e => mkPromptInfo fs (goJoin [root, "10_PromptTemplates"]) e.name) = ps :=
          Except.ok.inj h
        rw [← hps] at hp
        obtain ⟨e, _, rfl⟩ := List.mem_map.mp hp
        exact ⟨e.name, rfl⟩

/-- Claim C3: over any successfully listed template set, a query that
passes the exact-match test for some template makes `FindPrompt` return the
first exactly-matching template (never a merely-substring match, regardless
of substring collisions); and `FindPrompt` returns the not-found error
precisely when no template passes the exact test and none passes the
substring test. -/
theorem c3_find_exact_priority (fs : TemplateFS) (root query : String)
    (ps : List PromptInfo) (h : ListPrompts fs root = .ok ps) :
    (∀ p ∈ ps, exactMatchB query p = true →
        ∃ q, ps.find? (exactMatchB query) = some q ∧ exactMatchB query q = true ∧
          FindPrompt fs root query = .ok q) ∧
    (FindPrompt fs root query = .error (.promptNotFound query) ↔
        ∀ p ∈ ps, exactMatchB query p = false ∧ subMatchB query p = false) := by
  constructor
  · intro p hp hm
    obtain ⟨q, hq, hpq⟩ := findSomeExists (exactMatchB query) ps p hp hm
    exact ⟨q, hq, hpq, by simp [FindPrompt, h, hq]⟩
  · constructor
    · intro hf
      cases hf1 : ps.find? (exactMatchB query) with
      | some q => simp [FindPrompt, h, hf1] at hf
      | none =>
        cases hf2 : ps.find? (subMatchB query) with
        | some q => simp [FindPrompt, h, hf1, hf2] at hf
        | none =>
          intro p hp
          exact ⟨(findNoneIff _ _).mp hf1 p hp, (findNoneIff _ _).mp hf2 p hp⟩
    · intro hall
      have h1 : ps.find? (exactMatchB query) = none :=
        (findNoneIff _ _).mpr (fun x hx => (hall x hx).1)
      have h2 : ps.find? (subMatchB query) = none :=
        (findNoneIff _ _).mpr (fun x hx => (hall x hx).2)
      simp [FindPrompt, h, h1, h2]

theorem c3_witness :
    ListPrompts c3fs "r" = .ok [c3info1, c3info2] ∧
      exactMatchB "sales" c3info2 = true ∧ subMatchB "sales" c3info1 = true ∧
      (∃ q, [c3info1, c3info2].find? (exactMatchB "sales") = some q ∧
        exactMatchB "sales" q = true ∧ FindPrompt c3fs "r" "sales" = .ok q) :=
  ⟨by decide, by decide, by decide,
    (c3_find_exact_priority c3fs "r" "sales" [c3info1, c3info2] (by decide)).1
      c3info2 (by decide) (by decide)⟩

/-- Claim C10 is false on the code: with templates `a.md` and `.md`, the
empty query does not fail every exact-match check — `.md` has an empty
display name and filename stem, so it passes the exact test — and find
returns the `.md` template, which is not the first template in
directory-listing order. -/
theorem c10_counterexample :
    FindPrompt c10fs "r" "" = .ok c10info2 ∧
      exactMatchB "" c10info2 = true ∧
      ListPrompts c10fs "r" = .ok [c10info1, c10info2] ∧
      c10info2 ≠ c10info1 :=
  ⟨by decide, by decide, by decide, by decide⟩

/-- Amended claim C10: for every non-empty template set, find with an empty
or whitespace-only query never returns the not-found error: it returns the
first template passing the exact-match check if one exists (possible only
for a template with an empty display name or filename stem, such as a file
named `.md`), and otherwise the substring fallback matches every display
name and the first template in directory-listing order is returned. -/
theorem c10_amended_empty_query (fs : TemplateFS) (root q : String)
    (ps : List PromptInfo) (h : ListPrompts fs root = .ok ps) (hne : ps ≠ [])
    (hq : trimS q = "") :
    ∃ p, FindPrompt fs root q = .ok p ∧
      (ps.find? (exactMatchB q) = some p ∨
        (ps.find? (exactMatchB q) = none ∧ ps.head? = some p)) := by
  cases hfe : ps.find? (exactMatchB q) with
  | some p => exact ⟨p, by simp [FindPrompt, h, hfe], Or.inl rfl⟩
  | none =>
    cases ps with
    | nil => exact absurd rfl hne
    | cons p0 ps' =>
      have hsub : subMatchB q p0 = true := subMatch_of_trim_empty q p0 hq
      have hfsub : List.find? (subMatchB q) (p0 :: ps') = some p0 := by
        simp [List.find?, hsub]
      refine ⟨p0, ?_, Or.inr ⟨rfl, rfl⟩⟩
      simp [FindPrompt, h, hfe, hfsub]

theorem c10_witness :
    ListPrompts c10wfs "r" = .ok [c10wa, c10wb] ∧
      ([c10wa, c10wb] : List PromptInfo) ≠ [] ∧ trimS "  " = "" ∧
      (∃ p, FindPrompt c10wfs "r" "  " = .ok p ∧
        ([c10wa, c10wb].find? (exactMatchB "  ") = some p ∨
          ([c10wa, c10wb].find? (exactMatchB "  ") = none ∧
            [c10wa, c10wb].head? = some p))) :=
  ⟨by decide, by decide, by decide,
    c10_amended_empty_query c10wfs "r" "  " [c10wa, c10wb] (by decide) (by decide)
      (by decide)⟩

/-- Claim C4 is false as stated: for the readable template `a.md` with
content `# hi`, the first line with the leading `#` trimmed is `" hi"`
(3 characters, under the limit, so the claim says it is stored unchanged),
but the stored description is `"hi"` — the code additionally trims
surrounding whitespace. -/
theorem c4_counterexample :
    ListPrompts c4fs "r" = .ok [c4info] ∧
      claimDescription "# hi" = " hi" ∧
      c4info.description = "hi" ∧ ("hi" : String) ≠ " hi" :=
  ⟨by decide, by decide, by decide, by decide⟩

/-- Amended claim C4: for every readable template file, the stored
description is the first line of its content with a leading `#` removed and
surrounding whitespace trimmed; when that trimmed line exceeds 60
characters the stored description is exactly its first 60 characters
followed by the 3-character ellipsis (63 characters in all), and otherwise
it is stored unchanged; for an unreadable file the description is empty. -/
theorem c4_amended_description (fs : TemplateFS) (root : String)
    (ps : List PromptInfo) (h : ListPrompts fs root = .ok ps)
    (p : PromptInfo) (hp : p ∈ ps) :
    (∀ c, fs.fileContent p.fileName = some c →
        p.description = specDescription c ∧
        (60 < lenS (trimS (stripPreS (firstLineS c) "#")) →
          p.description = takeS (trimS (stripPreS (firstLineS c) "#")) 60 ++ "..." ∧
            lenS p.description = 63) ∧
        (lenS (trimS (stripPreS (firstLineS c) "#")) ≤ 60 →
          p.description = trimS (stripPreS (firstLineS c) "#"))) ∧
    (fs.fileContent p.fileName = none → p.description = "") := by
  obtain ⟨n, rfl⟩ := listPrompts_shape fs root ps h p hp
  have hfn : (mkPromptInfo fs (goJoin [root, "10_PromptTemplates"]) n).fileName = n := rfl
  constructor
  · intro c hc
    rw [hfn] at hc
    have hdesc :
        (mkPromptInfo fs (goJoin [root, "10_PromptTemplates"]) n).description =
          codeDescription c := by
      simp [mkPromptInfo, hc]
    refine ⟨by rw [hdesc]; rfl, ?_, ?_⟩
    · intro hlong
      rw [hdesc]
      unfold codeDescription
      rw [if_pos hlong]
      exact ⟨rfl, truncLen _ hlong⟩
    · intro hshort
      rw [hdesc]
      unfold codeDescription
      rw [if_neg (by omega)]
  · intro hc
    rw [hfn] at hc
    simp [mkPromptInfo, hc]

theorem c4_witness :
    ListPrompts c4fs "r" = .ok [c4info] ∧ c4info ∈ [c4info] ∧
      c4fs.fileContent c4info.fileName = some "# hi" ∧
      c4info.description = specDescription "# hi" ∧
      ListPrompts c4fsLong "r" = .ok [c4infoLong] ∧
      60 < lenS (trimS (stripPreS (firstLineS ("# " ++ c4long)) "#")) ∧
      (c4infoLong.description =
          takeS (trimS (stripPreS (firstLineS ("# " ++ c4long)) "#")) 60 ++ "..." ∧
        lenS c4infoLong.description = 63) :=
  ⟨by decide, by decide, by decide,
    ((c4_amended_description c4fs "r" [c4info] (by decide) c4info (by decide)).1
        "# hi" (by decide)).1,
    by decide, by decide,
    ((c4_amended_description c4fsLong "r" [c4infoLong] (by decide) c4infoLong
          (by decide)).1 ("# " ++ c4long) (by decide)).2.1 (by decide)⟩

/-- Claim C9 is false as stated: on a successful run the code returns the
captured standard output with surrounding whitespace trimmed, not the
captured standard output itself — here the subprocess emits `"ok\n"` but
the call returns `"ok"`. -/
theorem c9_counterexample :
    ExecutePrompt c9w "p" "u" = .ok "ok" ∧
      (c9w.run ("p" ++ "\n\nUser Request:\n" ++ "u")).stdout = "ok\n" ∧
      ExecutePrompt c9w "p" "u" ≠
        .ok ((c9w.run ("p" ++ "\n\nUser Request:\n" ++ "u")).stdout) :=
  ⟨by decide, by decide, by decide⟩

/-- Amended claim C9: the local backend feeds the subprocess the combined
prompt (template body, the literal `"\n\nUser Request:\n"` separator, then
the user input) and returns an error exactly when the stdin pipe cannot be
created, the subprocess cannot start, writing the prompt to stdin fails,
the process exits unsuccessfully (error carrying the captured standard
error), or standard output is empty after a successful exit; otherwise it
returns the captured standard output trimmed of surrounding whitespace. -/
theorem c9_amended_characterization (w : ProcWorld) (p u : String) :
    ((∃ e, ExecutePrompt w p u = .error e) ↔
        (w.stdinPipeOk = false ∨ w.startOk = false ∨ w.writeOk = false ∨
          (w.run (p ++ "\n\nUser Request:\n" ++ u)).exitOk = false ∨
          (w.run (p ++ "\n\nUser Request:\n" ++ u)).stdout = "")) ∧
    (w.stdinPipeOk = false → ExecutePrompt w p u = .error .stdinPipeFailed) ∧
    (w.stdinPipeOk = true → w.startOk = false →
        ExecutePrompt w p u = .error .startFailed) ∧
    (w.stdinPipeOk = true → w.startOk = true → w.writeOk = false →
        ExecutePrompt w p u = .error .writePromptFailed) ∧
    (w.stdinPipeOk = true → w.startOk = true → w.writeOk = true →
        (w.run (p ++ "\n\nUser Request:\n" ++ u)).exitOk = false →
        ExecutePrompt w p u =
          .error (.executionFailed (w.run (p ++ "\n\nUser Request:\n" ++ u)).stderr)) ∧
    (w.stdinPipeOk = true → w.startOk = true → w.writeOk = true →
        (w.run (p ++ "\n\nUser Request:\n" ++ u)).exitOk = true →
        (w.run (p ++ "\n\nUser Request:\n" ++ u)).stdout = "" →
        ExecutePrompt w p u = .error .emptyResponse) ∧
    (w.stdinPipeOk = true → w.startOk = true → w.writeOk = true →
        (w.run (p ++ "\n\nUser Request:\n" ++ u)).exitOk = true →
        (w.run (p ++ "\n\nUser Request:\n" ++ u)).stdout ≠ "" →
        ExecutePrompt w p u =
          .ok (trimS (w.run (p ++ "\n\nUser Request:\n" ++ u)).stdout)) := by
  refine ⟨?_, ?_, ?_, ?_, ?_, ?_, ?_⟩
  · cases hsp : w.stdinPipeOk
    · simp [ExecutePrompt, hsp]
    · cases hst : w.startOk
      · simp [ExecutePrompt, hsp, hst]
      · cases hwr : w.writeOk
        · simp [ExecutePrompt, hsp, hst, hwr]
        · cases hex : (w.run (p ++ "\n\nUser Request:\n" ++ u)).exitOk
          · simp [ExecutePrompt, hsp, hst, hwr, hex]
          · by_cases hem : (w.run (p ++ "\n\nUser Request:\n" ++ u)).stdout = ""
            · simp [ExecutePrompt, hsp, hst, hwr, hex, hem]
            · simp [ExecutePrompt, hsp, hst, hwr, hex, hem,
                beq_eq_false_iff_ne.mpr hem]
  · intro h1
    simp [ExecutePrompt, h1]
  · intro h1 h2
    simp [ExecutePrompt, h1, h2]
  · intro h1 h2 h3
    simp [ExecutePrompt, h1, h2, h3]
  · intro h1 h2 h3 h4
    simp [ExecutePrompt, h1, h2, h3, h4]
  · intro h1 h2 h3 h4 h5
    simp [ExecutePrompt, h1, h2, h3, h4, h5]
  · intro h1 h2 h3 h4 h5
    simp [ExecutePrompt, h1, h2, h3, h4, beq_eq_false_iff_ne.mpr h5]

theorem c9_witness :
    c9wStart.stdinPipeOk = true ∧ c9wStart.startOk = false ∧
      ExecutePrompt c9wStart "a" "b" = .error .startFailed ∧
      (∃ e, ExecutePrompt c9wStart "a" "b" = .error e) :=
  ⟨rfl, rfl,
    (c9_amended_characterization c9wStart "a" "b").2.2.1 rfl rfl,
    (c9_amended_characterization c9wStart "a" "b").1.mpr (Or.inr (Or.inl rfl))⟩

/-- Claim C1 is false for the run command: with no local assistant binary
(`claudeAvail = false`) and regardless of any credential (the run command
never consults the credential variable), `now-sc prompt run x` resolves the
template and gathers the piped input first and then fails with the
Claude-not-available error, not with the NoProviderConfigured error. -/
theorem c1_counterexample :
    runPromptRun flagsDefault "x" cmdFs (fun _ => none) (some "hello") false execOk
        (.error "unused") uiAll sfsOk "d" = .error .claudeCodeNotAvailable ∧
      RunError.claudeCodeNotAvailable ≠ RunError.noProviderConfigured :=
  ⟨by decide, by decide⟩

/-- Amended claim C1: when neither the local assistant binary is available
nor the credential variable is set, the interactive session fails with the
NoProviderConfigured error before anything else happens; the run command
performs no such combined check — it resolves the template and gathers
input first and, with the default local backend selected, fails with the
Claude-not-available error (the spec's BackendUnavailable) before the
subprocess is started.  In both paths no template is executed: the result
is the same for every backend function. -/
theorem c1_amended_no_provider :
    (∀ (dir : TemplateFS) (ui : UIScript) (sfs : SaveFS)
        (ce oe : String → String → Except String String) (now : String),
        runPrompt "" false dir ui sfs ce oe now = .error .noProviderConfigured) ∧
    (∀ (flags : RunFlags) (promptName : String) (tfs : TemplateFS)
        (ctxRead : String → Option String) (s : String)
        (ce : String → String → Except String String)
        (dsel : Except String (List String)) (ui : UIScript) (sfs : SaveFS)
        (now : String) (p : PromptInfo) (c : String),
        flags.useClaudeCode = true → flags.discover = false →
        flags.inputFiles = [] →
        FindPrompt tfs "." promptName = .ok p →
        tfs.fileContent p.fileName = some c →
        s ≠ "" →
        runPromptRun flags promptName tfs ctxRead (some s) false ce dsel ui sfs now =
          .error .claudeCodeNotAvailable) := by
  constructor
  · intro dir ui sfs ce oe now
    rfl
  · intro flags promptName tfs ctxRead s ce dsel ui sfs now p c
      hcc hdisc hfiles hfind hcontent hs
    simp [runPromptRun, runRunPipeline, hcc, hdisc, hfiles, hfind, hcontent,
      beq_eq_false_iff_ne.mpr hs]

theorem c1_witness :
    runPrompt "" false cmdFs uiAll sfsOk execOk execOk "d" =
        .error .noProviderConfigured ∧
      flagsDefault.useClaudeCode = true ∧ flagsDefault.discover = false ∧
      flagsDefault.inputFiles = [] ∧
      FindPrompt cmdFs "." "x" = .ok cmdInfoX ∧
      cmdFs.fileContent cmdInfoX.fileName = some "body" ∧ ("hello" : String) ≠ "" ∧
      runPromptRun flagsDefault "x" cmdFs (fun _ => none) (some "hello") false execOk
          (.error "unused") uiAll sfsOk "d" = .error .claudeCodeNotAvailable :=
  ⟨c1_amended_no_provider.1 cmdFs uiAll sfsOk execOk execOk "d",
    rfl, rfl, rfl, by decide, by decide, by decide,
    c1_amended_no_provider.2 flagsDefault "x" cmdFs (fun _ => none) "hello" execOk
      (.error "unused") uiAll sfsOk "d" cmdInfoX "body" rfl rfl rfl (by decide)
      (by decide) (by decide)⟩

/-- Claim C8 is false as stated: canceling the template-selection menu of
the interactive session is an error (`prompt selection failed`), not a
clean, silent success. -/
theorem c8_counterexample :
    runPrompt "k" true cmdFs uiCancelSelect sfsOk execOk execOk "d" =
        .error .promptSelectionFailed ∧
      (Except.error RunError.promptSelectionFailed ≠
        (.ok none : Except RunError (Option (String × String)))) :=
  ⟨by decide, by decide⟩

/-- Amended claim C8: declining the save confirmation or canceling any
save-stage prompt — the location menu, the custom-path prompt, or the
filename prompt — short-circuits to a clean, silent success (`ok`, nothing
saved), both in the interactive session and, for the save confirmation, in
the run command; but canceling the template-selection menu is an error. -/
theorem c8_amended_cancel_behaviour :
    (∀ (ui : UIScript) (sfs : SaveFS) (now sel inp res : String),
        ui.confirmSave = false →
        saveFlowInteractive ui sfs now sel inp res = .ok none) ∧
    (∀ (ui : UIScript) (sfs : SaveFS) (now sel inp res : String),
        ui.selectLocation = none →
        saveFlowInteractive ui sfs now sel inp res = .ok none) ∧
    (∀ (ui : UIScript) (sfs : SaveFS) (now sel inp res : String),
        ui.selectLocation = some 4 → ui.customPath = none →
        saveFlowInteractive ui sfs now sel inp res = .ok none) ∧
    (∀ (ui : UIScript) (sfs : SaveFS) (now sel inp res : String) (l : Nat),
        ui.selectLocation = some l → (l = 4 → ui.customPath.isSome) →
        ui.filename = none →
        saveFlowInteractive ui sfs now sel inp res = .ok none) ∧
    (∀ (apiKey : String) (hasCC : Bool) (dir : TemplateFS) (ui : UIScript)
        (sfs : SaveFS) (ce oe : String → String → Except String String)
        (now : String) (x : String × String × String),
        runPromptPipeline apiKey hasCC dir ui ce oe = .ok x →
        runPrompt apiKey hasCC dir ui sfs ce oe now =
          saveFlowInteractive ui sfs now x.1 x.2.1 x.2.2) ∧
    (∀ (flags : RunFlags) (promptName : String) (tfs : TemplateFS)
        (ctxRead : String → Option String) (stdin : Option String)
        (ca : Bool) (ce : String → String → Except String String)
        (dsel : Except String (List String)) (ui : UIScript) (sfs : SaveFS)
        (now : String) (x : String × String × String),
        runRunPipeline flags promptName tfs ctxRead stdin ca ce dsel ui = .ok x →
        flags.outputPath = "" → flags.save = true → ui.confirmSave = false →
        runPromptRun flags promptName tfs ctxRead stdin ca ce dsel ui sfs now =
          .ok none) ∧
    (∀ (apiKey : String) (hasCC : Bool) (dir : TemplateFS) (ui : UIScript)
        (sfs : SaveFS) (ce oe : String → String → Except String String)
        (now : String) (es : List DirEntry),
        (apiKey == "" && !hasCC) = false → dir.dirExists = true →
        dir.entries = some es → promptFilesOf es ≠ [] →
        ui.selectTemplate = none →
        runPrompt apiKey hasCC dir ui sfs ce oe now = .error .promptSelectionFailed) := by
  refine ⟨?_, ?_, ?_, ?_, ?_, ?_, ?_⟩
  · intro ui sfs now sel inp res h
    simp [saveFlowInteractive, h]
  · intro ui sfs now sel inp res h
    cases hcs : ui.confirmSave <;> simp [saveFlowInteractive, hcs, h]
  · intro ui sfs now sel inp res hloc hcp
    cases hcs : ui.confirmSave <;> simp [saveFlowInteractive, hcs, hloc, hcp]
  · intro ui sfs now sel inp res l hloc hl4 hfn
    cases hcs : ui.confirmSave with
    | false => simp [saveFlowInteractive, hcs]
    | true =>
      by_cases hl : l = 4
      · obtain ⟨cp, hcp⟩ := Option.isSome_iff_exists.mp (hl4 hl)
        subst hl
        simp [saveFlowInteractive, hcs, hloc, hcp, saveFlowProceed, hfn]
      · simp [saveFlowInteractive, hcs, hloc, hl, saveFlowProceed, hfn]
  · intro apiKey hasCC dir ui sfs ce oe now x h
    obtain ⟨a, b, c⟩ := x
    simp [runPrompt, h]
  · intro flags promptName tfs ctxRead stdin ca ce dsel ui sfs now x
      hpipe hout hsave hcs
    simp [runPromptRun, hpipe, saveStageRun, hout, hsave, hcs]
  · intro apiKey hasCC dir ui sfs ce oe now es hprov hdir hent hne hsel
    cases hpf : promptFilesOf es with
    | nil => exact absurd hpf hne
    | cons a l =>
      simp [runPrompt, runPromptPipeline, hprov, hdir, hent, hpf, hsel]

theorem c8_witness :
    uiDecline.confirmSave = false ∧
      saveFlowInteractive uiDecline sfsOk "d" "x.md" "in" "out" = .ok none ∧
      ("k" == "" && !true) = false ∧ cmdFs.dirExists = true ∧
      cmdFs.entries = some [⟨"x.md", false⟩] ∧
      promptFilesOf [⟨"x.md", false⟩] ≠ [] ∧ uiCancelSelect.selectTemplate = none ∧
      runPrompt "k" true cmdFs uiCancelSelect sfsOk execOk execOk "d" =
        .error .promptSelectionFailed :=
  ⟨rfl,
    c8_amended_cancel_behaviour.1 uiDecline sfsOk "d" "x.md" "in" "out" rfl,
    rfl, rfl, rfl, by decide, rfl,
    c8_amended_cancel_behaviour.2.2.2.2.2.2 "k" true cmdFs uiCancelSelect sfsOk
      execOk execOk "d" [⟨"x.md", false⟩] rfl rfl rfl (by decide) rfl⟩

theorem saveFlowProceed_ok (ui : UIScript) (sfs : SaveFS)
    (now sel inp res savePath fn : String) (pc : String × String)
    (hfn : ui.filename = some fn)
    (h : saveFlowProceed ui sfs now sel inp res savePath = .ok (some pc)) :
    pc = (goJoin [".", savePath, fn ++ ".md"],
      interactiveOutputContent fn now sel inp res) := by
  unfold saveFlowProceed at h
  rw [hfn] at h
  cases hm : sfs.mkdirOk with
  | false => simp [hm] at h
  | true =>
    cases hw : sfs.writeOk with
    | false => simp [hm, hw] at h
    | true =>
      simp [hm, hw] at h
      exact h.symm

/-- Claim C2 is false as stated: the `--output` save path (and the run
command's interactive save, which shares the same writer) does not produce
the claimed fixed section layout — its file carries no model identifier at
all, while the claimed layout always contains the `**Model:**` section. -/
theorem c2_counterexample :
    savePromptOutputM "p" "i" "r" "out.md" sfsOk "d" =
        .ok (some ("out.md", savePromptOutputContent "p" "d" "i" "r")) ∧
      containsS (savePromptOutputContent "p" "d" "i" "r") "**Model:**" = false ∧
      containsS
          (fixedSectionLayout "p" "d" "p" "google/gemini-2.0-flash-exp:free" "i" "r")
          "**Model:**" = true ∧
      savePromptOutputContent "p" "d" "i" "r" ≠
        fixedSectionLayout "p" "d" "p" "google/gemini-2.0-flash-exp:free" "i" "r" :=
  ⟨by decide, by decide, by decide, by decide⟩

/-- Amended claim C2: each save path writes a fixed layout with the input
and response embedded verbatim, and reading the file back returns exactly
the written bytes — but the layouts differ.  The run command's writer
(used by `--output` and by its interactive save) produces title, date,
template name, input section and response section with no model
identifier; the interactive session's save produces title, date, template
name, model identifier, input section and response section (the claimed
six-part layout). -/
theorem c2_amended_save_layouts :
    (∀ (pname input response outPath : String) (sfs : SaveFS) (now : String)
        (pc : String × String),
        savePromptOutputM pname input response outPath sfs now = .ok (some pc) →
        pc.1 = outPath ∧
        pc.2 = savePromptOutputContent pname now input response ∧
        containsS pc.2 input = true ∧ containsS pc.2 response = true ∧
        (∀ st, writeStore st pc.1 pc.2 pc.1 = some pc.2)) ∧
    (∀ (ui : UIScript) (sfs : SaveFS) (now sel inp res fn : String)
        (pc : String × String),
        ui.filename = some fn →
        saveFlowInteractive ui sfs now sel inp res = .ok (some pc) →
        pc.2 = interactiveOutputContent fn now sel inp res ∧
        pc.2 = fixedSectionLayout (replaceCharS '_' ' ' fn) now sel
            "google/gemini-2.0-flash-exp:free" inp res ∧
        containsS pc.2 inp = true ∧ containsS pc.2 res = true ∧
        (∀ st, writeStore st pc.1 pc.2 pc.1 = some pc.2)) := by
  constructor
  · intro pname input response outPath sfs now pc h
    cases hm : sfs.mkdirOk with
    | false => simp [savePromptOutputM, hm] at h
    | true =>
      cases hw : sfs.writeOk with
      | false => simp [savePromptOutputM, hm, hw] at h
      | true =>
        simp [savePromptOutputM, hm, hw] at h
        obtain rfl := h.symm
        refine ⟨rfl, rfl, ?_, ?_, ?_⟩
        · apply containsS_of_append _
            ("# " ++ pname ++ "\n\n**Date:** " ++ now ++ "\n**Prompt:** " ++ pname ++
              "\n\n## Input\n\n")
            input ("\n\n## Response\n\n" ++ response ++ "\n")
          simp [savePromptOutputContent, dataAppend, List.append_assoc]
        · apply containsS_of_append _
            ("# " ++ pname ++ "\n\n**Date:** " ++ now ++ "\n**Prompt:** " ++ pname ++
              "\n\n## Input\n\n" ++ input ++ "\n\n## Response\n\n")
            response "\n"
          simp [savePromptOutputContent, dataAppend, List.append_assoc]
        · intro st
          simp [writeStore]
  · intro ui sfs now sel inp res fn pc hfn h
    have hpc : pc = (goJoin [".",
        (match ui.selectLocation with
         | some l => if l == 4 then ui.customPath.getD "" else locationPath l
         | none => ""), fn ++ ".md"],
        interactiveOutputContent fn now sel inp res) ∨
        pc.2 = interactiveOutputContent fn now sel inp res := by
      cases hcs : ui.confirmSave with
      | false => simp [saveFlowInteractive, hcs] at h
      | true =>
        cases hloc : ui.selectLocation with
        | none => simp [saveFlowInteractive, hcs, hloc] at h
        | some l =>
          by_cases hl : (l == 4) = true
          · cases hcp : ui.customPath with
            | none => simp [saveFlowInteractive, hcs, hloc, hl, hcp] at h
            | some cp =>
              have h' : saveFlowProceed ui sfs now sel inp res cp = .ok (some pc) := by
                simpa [saveFlowInteractive, hcs, hloc, hl, hcp] using h
              exact Or.inr
                (by rw [saveFlowProceed_ok ui sfs now sel inp res cp fn pc hfn h'])
          · have h' : saveFlowProceed ui sfs now sel inp res (locationPath l) =
                .ok (some pc) := by
              simpa [saveFlowInteractive, hcs, hloc, hl] using h
            exact Or.inr
              (by rw [saveFlowProceed_ok ui sfs now sel inp res (locationPath l) fn pc hfn h'])
    have h2 : pc.2 = interactiveOutputContent fn now sel inp res := by
      rcases hpc with h1 | h1
      · rw [h1]
      · exact h1
    refine ⟨h2, by rw [h2]; rfl, ?_, ?_, ?_⟩
    · rw [h2]
      apply containsS_of_append _
        ("# " ++ replaceCharS '_' ' ' fn ++ "\n\n**Date:** " ++ now ++
          "\n**Prompt Template:** " ++ sel ++ "\n**Model:** " ++
          "google/gemini-2.0-flash-exp:free" ++ "\n\n## User Input\n\n")
        inp ("\n\n## Response\n\n" ++ res ++ "\n")
      simp [interactiveOutputContent, dataAppend, List.append_assoc]
    · rw [h2]
      apply containsS_of_append _
        ("# " ++ replaceCharS '_' ' ' fn ++ "\n\n**Date:** " ++ now ++
          "\n**Prompt Template:** " ++ sel ++ "\n**Model:** " ++
          "google/gemini-2.0-flash-exp:free" ++ "\n\n## User Input\n\n" ++ inp ++
          "\n\n## Response\n\n")
        res "\n"
      simp [interactiveOutputContent, dataAppend, List.append_assoc]
    · intro st
      simp [writeStore]

theorem c2_witness :
    savePromptOutputM "p" "i" "r" "out.md" sfsOk "d" = .ok (some c2runPair) ∧
      (c2runPair.1 = "out.md" ∧
        c2runPair.2 = savePromptOutputContent "p" "d" "i" "r" ∧
        containsS c2runPair.2 "i" = true ∧ containsS c2runPair.2 "r" = true ∧
        writeStore (fun _ => none) c2runPair.1 c2runPair.2 c2runPair.1 =
          some c2runPair.2) ∧
      uiAll.filename = some "meeting" ∧
      saveFlowInteractive uiAll sfsOk "d" "x.md" "i" "r" = .ok (some c2pairW) ∧
      (c2pairW.2 = interactiveOutputContent "meeting" "d" "x.md" "i" "r" ∧
        c2pairW.2 = fixedSectionLayout (replaceCharS '_' ' ' "meeting") "d" "x.md"
            "google/gemini-2.0-flash-exp:free" "i" "r" ∧
        containsS c2pairW.2 "i" = true ∧ containsS c2pairW.2 "r" = true ∧
        writeStore (fun _ => none) c2pairW.1 c2pairW.2 c2pairW.1 = some c2pairW.2) := by
  have h1 := (c2_amended_save_layouts.1 "p" "i" "r" "out.md" sfsOk "d" c2runPair
    (by decide))
  have h2 := (c2_amended_save_layouts.2 uiAll sfsOk "d" "x.md" "i" "r" "meeting"
    c2pairW rfl (by decide))
  exact ⟨by decide,
    ⟨h1.1, h1.2.1, h1.2.2.1, h1.2.2.2.1, h1.2.2.2.2 (fun _ => none)⟩,
    rfl, by decide,
    ⟨h2.1, h2.2.1, h2.2.2.1, h2.2.2.2.1, h2.2.2.2.2 (fun _ => none)⟩⟩
